import Mathlib

/-!
Shallow embedding of the external-file synchronization subsystem of
`src/script.js` (Timber Volume Calculator).

The JavaScript code is asynchronous and effectful; we model it as explicit
state passing over a `World` that holds the persisted handle slot
(IndexedDB), the byte contents of every file reachable through a handle,
the user-visible status line, and a count of user prompts shown.  Each
external collaborator call (file picker, permission query/request,
IndexedDB transaction, file read, writable-stream write) can succeed or
throw; the outcome of each call site is supplied through an `Env`
structure, so theorems quantifying over the `Env` cover every behaviour of
the collaborators.  JavaScript exceptions are `Except JsErr`; a `try/catch`
block is a `match` on the inner result.
-/

namespace TimberExcel

/-- A JavaScript exception: the File System Access picker signals user
cancellation with an `AbortError`; every other failure is collapsed to
`err` because the code only ever tests `error.name === "AbortError"`. -/
inductive JsErr where
  | abort
  | err
deriving DecidableEq, Repr

instance {ε α : Type} [DecidableEq ε] [DecidableEq α] : DecidableEq (Except ε α) := fun a b =>
  match a, b with
  | .ok x, .ok y => decidable_of_iff (x = y) (by simp)
  | .error x, .error y => decidable_of_iff (x = y) (by simp)
  | .ok _, .error _ => isFalse (by simp)
  | .error _, .ok _ => isFalse (by simp)

/-- File handles are identified by a number; the handle object itself is
opaque to the code apart from its `name`. -/
abbrev Handle := Nat

/-- The handle's `name` shown in the "Connected (...)" status. -/
def handleName (h : Handle) : String := toString h

abbrev Cell := String
abbrev Row := List Cell
abbrev SheetData := List Row

/-- An XLSX workbook as the code sees it through the SheetJS API:
`SheetNames` array plus a `Sheets` object mapping names to sheets. -/
structure Workbook where
  SheetNames : List String
  Sheets : List (String × SheetData)
deriving DecidableEq, Repr

/-- Contents of a file, at the resolution the code observes them:
zero-size, a valid XLSX encoding of a workbook, or non-empty bytes that
`XLSX.read` rejects. -/
inductive FileBytes where
  | empty
  | encoded (wb : Workbook)
  | invalid
deriving DecidableEq, Repr

/-- Size of `file.size`, to the precision the code uses it (`=== 0` / `> 0`). -/
def FileBytes.size : FileBytes → Nat
  | .empty => 0
  | .encoded _ => 1
  | .invalid => 1

/-- Model of `XLSX.read(arrayBuffer, ...)`: succeeds exactly on valid
encodings, throws otherwise. -/
def xlsxRead : FileBytes → Except JsErr Workbook
  | .encoded wb => .ok wb
  | _ => .error .err

/-- The world state threaded through every operation. -/
structure World where
  hasXLSX : Bool
  hasIndexedDB : Bool
  hasPicker : Bool
  /-- The single IndexedDB slot under `HANDLE_KEY`. -/
  handleStore : Option Handle
  /-- Byte contents of each file, by handle. -/
  files : Handle → FileBytes
  /-- Text of the `excelStatus` element. -/
  status : String
  /-- Whether the status element carries the `error` class. -/
  statusIsError : Bool
  /-- How many user prompts (file picker, permission request) were shown. -/
  prompts : Nat

def EXCEL_SHEET_NAME : String := "CustomerData"

def EXCEL_HEADERS : List String :=
  ["Date", "Name", "WhatsApp Number", "Address", "Total Volume (ft^3)"]

/-- Model of `setExcelStatus(message, isError)`. -/
def setExcelStatus (w : World) (message : String) (isError : Bool) : World :=
  { w with status := "Excel: " ++ message, statusIsError := isError }

/-- Overwrite the bytes of file `h` (a completed `createWritable` /
`write` / `close` sequence; all-or-nothing). -/
def writeFile (w : World) (h : Handle) (b : FileBytes) : World :=
  { w with files := fun h2 => if h2 = h then b else w.files h2 }

/-- Model of `XLSX.utils.book_new()` + `aoa_to_sheet([EXCEL_HEADERS])` +
`book_append_sheet` under the fixed sheet name
(`createWorkbookWithHeaders`). -/
def createWorkbookWithHeaders : Workbook :=
  { SheetNames := [EXCEL_SHEET_NAME], Sheets := [(EXCEL_SHEET_NAME, [EXCEL_HEADERS])] }

/-- Model of `appendRowToSheet(sheet, row)`: read all non-blank rows; if there are
none, put the header row at `A1`; then append `row` after the last row
(`origin: -1`). -/
def appendRowToSheet (sheet : SheetData) (row : Row) : SheetData :=
  (if sheet.length = 0 then sheet ++ [EXCEL_HEADERS] else sheet) ++ [row]

/-- Lines 186-191 of `appendCustomerToExcel`: look the fixed sheet name up
in `workbook.Sheets`; if absent, create a sheet from
`[EXCEL_HEADERS]`, register it in `Sheets` and push the name onto
`SheetNames`.  Returns the sheet object together with the (possibly
extended) workbook. -/
def getOrCreateSheet (wb : Workbook) : SheetData × Workbook :=
  match wb.Sheets.lookup EXCEL_SHEET_NAME with
  | some s => (s, wb)
  | none =>
    let s : SheetData := [EXCEL_HEADERS]
    (s, { SheetNames := wb.SheetNames ++ [EXCEL_SHEET_NAME],
          Sheets := wb.Sheets ++ [(EXCEL_SHEET_NAME, s)] })

/-- In JavaScript `appendRowToSheet` mutates the sheet object that sits
inside `workbook.Sheets`; functionally, store the updated sheet back
under the fixed name. -/
def setSheet (wb : Workbook) (s : SheetData) : Workbook :=
  { wb with Sheets := wb.Sheets.map fun p => if p.1 = EXCEL_SHEET_NAME then (p.1, s) else p }

/-- Decimal digit character, `'0'`-based. -/
def digitChar (n : Nat) : Char := Char.ofNat (48 + n)

/-- Exactly three decimal digit characters for `n < 1000`. -/
def pad3 (n : Nat) : String :=
  String.mk [digitChar (n / 100 % 10), digitChar (n / 10 % 10), digitChar (n % 10)]

/-- Model of `x.toFixed(3)` on a finite number, over `ℚ`: round to the
nearest thousandth (ties up) and print with exactly three digits after
the decimal point.  `Int.fdiv (2000 * q.num + q.den) (2 * q.den)` is
`⌊q * 1000 + 1/2⌋` written on the numerator/denominator so that it
evaluates by kernel reduction. -/
def toFixed3 (q : ℚ) : String :=
  let scaled : Int := Int.fdiv (2000 * q.num + (q.den : Int)) (2 * (q.den : Int))
  let n : Nat := scaled.natAbs
  (if scaled < 0 then "-" else "") ++ toString (n / 1000) ++ "." ++ pad3 (n % 1000)

/-- The customer record handed to the append step. -/
structure Entry where
  date : String
  name : String
  whatsapp : String
  address : String
  totalVolume : ℚ
deriving DecidableEq, Repr

/-- The five-element row built at lines 193-199:
`[entry.date, entry.name, entry.whatsapp, entry.address,
entry.totalVolume.toFixed(3)]`. -/
def entryRow (e : Entry) : Row :=
  [e.date, e.name, e.whatsapp, e.address, toFixed3 e.totalVolume]

/-- Whether `s` ends in a decimal point followed by exactly three digits. -/
def hasThreeDecimals (s : String) : Bool :=
  match s.data.reverse with
  | d1 :: d2 :: d3 :: dot :: _ => d1.isDigit && d2.isDigit && d3.isDigit && dot = '.'
  | _ => false

/-- Model of `ensureReadWritePermission(handle)`: absent handle gives `false`;
otherwise `queryPermission`, and if not already granted,
`requestPermission` (which shows a prompt).  Either API call may throw. -/
def ensureReadWritePermission (q r : Except JsErr Bool) (handle : Option Handle)
    (w : World) : Except JsErr Bool × World :=
  match handle with
  | none => (.ok false, w)
  | some _ =>
    match q with
    | .error e => (.error e, w)
    | .ok current =>
      if current then (.ok true, w)
      else
        let w1 := { w with prompts := w.prompts + 1 }
        match r with
        | .error e => (.error e, w1)
        | .ok requested => (.ok requested, w1)

/-- Model of `hasReadWritePermission(handle)`: the non-prompting variant; its own
`try/catch` turns any query failure into `false`. -/
def hasReadWritePermission (q : Except JsErr Bool) (handle : Option Handle)
    (w : World) : Bool × World :=
  match handle with
  | none => (false, w)
  | some _ =>
    match q with
    | .error _ => (false, w)
    | .ok g => (g, w)

/-- Per-call-site collaborator outcomes for one `connectExcelFile` call. -/
structure ConnectEnv where
  /-- `showSaveFilePicker`: the picked handle, or a throw. -/
  picker : Except JsErr Handle
  /-- `queryPermission` inside `ensureReadWritePermission`. -/
  query : Except JsErr Bool
  /-- `requestPermission` inside `ensureReadWritePermission`. -/
  request : Except JsErr Bool
  /-- the `saveFileHandle` IndexedDB transaction. -/
  put : Except JsErr Unit
  /-- `handle.getFile()`. -/
  getFileR : Except JsErr Unit
  /-- the `createWritable`/`write`/`close` sequence. -/
  writeR : Except JsErr Unit
deriving Repr

/-- The body of the `try` block of `connectExcelFile` (lines 104-132). -/
def connectBody (env : ConnectEnv) (w : World) : Except JsErr Bool × World :=
  match env.picker with
  | .error e => (.error e, { w with prompts := w.prompts + 1 })
  | .ok handle =>
    let w1 := { w with prompts := w.prompts + 1 }
    match ensureReadWritePermission env.query env.request (some handle) w1 with
    | (.error e, w2) => (.error e, w2)
    | (.ok hasPermission, w2) =>
      if !hasPermission then
        (.ok false, setExcelStatus w2 "Permission denied for Excel file." true)
      else
        match env.put with
        | .error e => (.error e, w2)
        | .ok _ =>
          let w3 := { w2 with handleStore := some handle }
          match env.getFileR with
          | .error e => (.error e, w3)
          | .ok _ =>
            if (w3.files handle).size = 0 then
              match env.writeR with
              | .error e => (.error e, w3)
              | .ok _ =>
                let w4 := writeFile w3 handle (.encoded createWorkbookWithHeaders)
                (.ok true, setExcelStatus w4 ("Connected (" ++ handleName handle ++ ")") false)
            else
              (.ok true, setExcelStatus w3 ("Connected (" ++ handleName handle ++ ")") false)

/-- Model of `connectExcelFile()`: feature checks, then the `try` body, with the
`catch` distinguishing `AbortError` from everything else. -/
def connectExcelFile (env : ConnectEnv) (w : World) : Except JsErr Bool × World :=
  if !(w.hasPicker && w.hasIndexedDB) then
    (.ok false, setExcelStatus w "Not supported in this browser. Use latest Chrome/Edge." true)
  else if !w.hasXLSX then
    (.ok false, setExcelStatus w "Excel library not loaded. Check internet and reload." true)
  else
    match connectBody env w with
    | (.ok b, w1) => (.ok b, w1)
    | (.error .abort, w1) => (.ok false, setExcelStatus w1 "Connection cancelled." false)
    | (.error .err, w1) => (.ok false, setExcelStatus w1 "Failed to connect Excel file." true)

/-- Per-call-site collaborator outcomes for one `appendCustomerToExcel`
call (including, for the auto-connect path, a nested `ConnectEnv`). -/
structure AppendEnv where
  /-- first `getSavedFileHandle` transaction. -/
  getHandle1 : Except JsErr Unit
  /-- outcomes for the nested `connectExcelFile`, if reached. -/
  connectEnv : ConnectEnv
  /-- the reloading `getSavedFileHandle` transaction after auto-connect. -/
  getHandle2 : Except JsErr Unit
  /-- `queryPermission` inside `ensureReadWritePermission`. -/
  query : Except JsErr Bool
  /-- `requestPermission` inside `ensureReadWritePermission`. -/
  request : Except JsErr Bool
  /-- `handle.getFile()` / `file.arrayBuffer()`. -/
  getFileR : Except JsErr Unit
  /-- the `createWritable`/`write`/`close` sequence. -/
  writeR : Except JsErr Unit
  /-- `new Date().toLocaleTimeString()`. -/
  nowTime : String
deriving Repr

/-- Lines 170-203 of `appendCustomerToExcel`: everything after the handle
has been resolved.  A `none` handle reaching `handle.getFile()` would be
a TypeError, modelled as a throw. -/
def appendStep2 (env : AppendEnv) (entry : Entry) (handle : Option Handle)
    (w : World) : Except JsErr Bool × World :=
  match ensureReadWritePermission env.query env.request handle w with
  | (.error e, w1) => (.error e, w1)
  | (.ok hasPermission, w1) =>
    if !hasPermission then
      (.ok false, setExcelStatus w1 "No permission to update Excel file." true)
    else
      match handle with
      | none => (.error .err, w1)
      | some h =>
        match env.getFileR with
        | .error e => (.error e, w1)
        | .ok _ =>
          let file := w1.files h
          match (if file.size > 0 then xlsxRead file else .ok createWorkbookWithHeaders :
              Except JsErr Workbook) with
          | .error e => (.error e, w1)
          | .ok workbook =>
            let sw := getOrCreateSheet workbook
            let sheet2 := appendRowToSheet sw.1 (entryRow entry)
            let wb2 := setSheet sw.2 sheet2
            match env.writeR with
            | .error e => (.error e, w1)
            | .ok _ =>
              let w2 := writeFile w1 h (.encoded wb2)
              (.ok true, setExcelStatus w2 ("Updated at " ++ env.nowTime) false)

/-- The body of the `try` block of `appendCustomerToExcel`
(lines 156-203). -/
def appendBody (env : AppendEnv) (entry : Entry) (autoConnect : Bool)
    (w : World) : Except JsErr Bool × World :=
  match env.getHandle1 with
  | .error e => (.error e, w)
  | .ok _ =>
    match w.handleStore with
    | some h => appendStep2 env entry (some h) w
    | none =>
      if autoConnect then
        match connectExcelFile env.connectEnv w with
        | (.ok false, w1) => (.ok false, w1)
        | (.ok true, w1) =>
          match env.getHandle2 with
          | .error e => (.error e, w1)
          | .ok _ => appendStep2 env entry w1.handleStore w1
        | (.error e, w1) => (.error e, w1)
      else
        (.ok false, setExcelStatus w "Not connected. Click Connect Excel." true)

/-- The catch-all of `appendCustomerToExcel` (lines 204-207): any
exception becomes a `false` return with a generic status. -/
def appendCatch : Except JsErr Bool × World → Except JsErr Bool × World
  | (.ok b, w1) => (.ok b, w1)
  | (.error _, w1) => (.ok false, setExcelStatus w1 "Could not update Excel file." true)

/-- Model of `appendCustomerToExcel(entry, ...)`: feature checks, then
the `try` body with its catch-all. -/
def appendCustomerToExcel (env : AppendEnv) (entry : Entry) (autoConnect : Bool)
    (w : World) : Except JsErr Bool × World :=
  if !w.hasXLSX then
    (.ok false, setExcelStatus w "Excel library not loaded. Check internet and reload." true)
  else if !(w.hasIndexedDB && w.hasPicker) then
    (.ok false, setExcelStatus w "Browser does not support direct Excel autosave." true)
  else
    appendCatch (appendBody env entry autoConnect w)

/-- Collaborator outcomes for one `restoreExcelConnectionStatus` call. -/
structure RestoreEnv where
  /-- the `getSavedFileHandle` transaction. -/
  getHandle : Except JsErr Unit
  /-- `queryPermission` inside `hasReadWritePermission`. -/
  query : Except JsErr Bool
deriving Repr

/-- The body of the `try` block of `restoreExcelConnectionStatus`. -/
def restoreBody (env : RestoreEnv) (w : World) : Except JsErr Unit × World :=
  match env.getHandle with
  | .error e => (.error e, w)
  | .ok _ =>
    match w.handleStore with
    | none => (.ok (), setExcelStatus w "Not connected" false)
    | some h =>
      match hasReadWritePermission env.query (some h) w with
      | (false, w1) => (.ok (), setExcelStatus w1 "Re-connect needed (permission not granted)" true)
      | (true, w1) => (.ok (), setExcelStatus w1 ("Connected (" ++ handleName h ++ ")") false)

/-- Model of `restoreExcelConnectionStatus()`: feature check, `try` body, catch-all. -/
def restoreExcelConnectionStatus (env : RestoreEnv) (w : World) :
    Except JsErr Unit × World :=
  if !(w.hasIndexedDB && w.hasPicker) then
    (.ok (), setExcelStatus w "Feature requires latest Chrome/Edge." true)
  else
    match restoreBody env w with
    | (.ok _, w1) => (.ok (), w1)
    | (.error _, w1) => (.ok (), setExcelStatus w1 "Connection unavailable. Re-connect Excel." true)

/-!  Derived notions used to state the claims. -/

/-- The pure document transformation performed by one append on the bytes
of the target (lines 176-199): empty bytes start from the header-only
workbook, other bytes must decode; then the sheet is fetched or created
and the row is appended.  `none` exactly when decoding throws. -/
def appendDoc (b : FileBytes) (row : Row) : Option Workbook :=
  match (if b.size > 0 then xlsxRead b else .ok createWorkbookWithHeaders :
      Except JsErr Workbook) with
  | .error _ => none
  | .ok wb0 => some (setSheet (getOrCreateSheet wb0).2 (appendRowToSheet (getOrCreateSheet wb0).1 row))

/-- One append call per list element: environment, record, `autoConnect`
flag; the world is threaded through. -/
def appendMany : List (AppendEnv × Entry × Bool) → World → World
  | [], w => w
  | c :: rest, w => appendMany rest (appendCustomerToExcel c.1 c.2.1 c.2.2 w).2

/-- Every call in the sequence reports success. -/
def allSucceed : List (AppendEnv × Entry × Bool) → World → Bool
  | [], _ => true
  | c :: rest, w =>
    if (appendCustomerToExcel c.1 c.2.1 c.2.2 w).1 = Except.ok true then
      allSucceed rest (appendCustomerToExcel c.1 c.2.1 c.2.2 w).2
    else false

/-- The status line shows a message in the fixed `Excel: `-labelled format
(every branch of the core writes one). -/
def hasExcelStatus (w : World) : Prop := ∃ m, w.status = "Excel: " ++ m


/-!  Concrete fixtures used by witnesses and counterexamples. -/

/-- A supported browser, nothing persisted, every file empty. -/
def baseWorld : World :=
  { hasXLSX := true, hasIndexedDB := true, hasPicker := true,
    handleStore := none, files := fun _ => .empty,
    status := "", statusIsError := false, prompts := 0 }

/-- Like `baseWorld` but with handle 7 already stored. -/
def connectedWorld : World := { baseWorld with handleStore := some 7 }

/-- Collaborators that all succeed; the picker returns handle 7. -/
def okConnectEnv : ConnectEnv :=
  { picker := .ok 7, query := .ok true, request := .ok true,
    put := .ok (), getFileR := .ok (), writeR := .ok () }

/-- Append collaborators that all succeed. -/
def okAppendEnv : AppendEnv :=
  { getHandle1 := .ok (), connectEnv := okConnectEnv, getHandle2 := .ok (),
    query := .ok true, request := .ok true, getFileR := .ok (), writeR := .ok (),
    nowTime := "10:00:00" }

/-- The concrete record of the spec's end-to-end scenario
(volume 12.345 = 2469/200). -/
def sampleEntry : Entry :=
  { date := "2024-01-01", name := "Alice", whatsapp := "1234567890",
    address := "12 Main St", totalVolume := ⟨2469, 200, by decide, by decide⟩ }

def sampleEntry2 : Entry :=
  { date := "2024-01-02", name := "Bob", whatsapp := "0987654321",
    address := "34 Side St", totalVolume := 2 }

/-- A decoded document that lacks the fixed sheet. -/
def noSheetWorkbook : Workbook := { SheetNames := [], Sheets := [] }

/-- Connect collaborators where only the initialization write fails. -/
def failWriteConnectEnv : ConnectEnv := { okConnectEnv with writeR := .error .err }

/-- Connect collaborators where only the handle-store transaction fails. -/
def failPutConnectEnv : ConnectEnv := { okConnectEnv with put := .error .err }

/-- Connect collaborators where the user cancels the picker. -/
def abortConnectEnv : ConnectEnv := { okConnectEnv with picker := .error .abort }

/-- File 7 exists with non-empty (undecodable) content. -/
def bigFileWorld : World :=
  { baseWorld with files := fun h => if h = 7 then .invalid else .empty }

/-- Handle 7 stored and its file holding non-document bytes. -/
def invalidFileWorld : World :=
  { baseWorld with handleStore := some 7,
                   files := fun h => if h = 7 then .invalid else .empty }

/-- Two append calls used by the sequence witness. -/
def twoCalls : List (AppendEnv × Entry × Bool) :=
  [(okAppendEnv, sampleEntry, false), (okAppendEnv, sampleEntry2, false)]

/-!  Frame and characterization lemmas. -/

theorem ensure_world (q r : Except JsErr Bool) (hd : Option Handle) (w : World) :
    (ensureReadWritePermission q r hd w).2 = w ∨
    (ensureReadWritePermission q r hd w).2 = { w with prompts := w.prompts + 1 } := by
  cases hd with
  | none => exact Or.inl rfl
  | some h =>
    cases q with
    | error e => exact Or.inl rfl
    | ok c =>
      cases c with
      | true => exact Or.inl rfl
      | false =>
        cases r with
        | error e => exact Or.inr rfl
        | ok g => exact Or.inr rfl

theorem hasRW_world (q : Except JsErr Bool) (hd : Option Handle) (w : World) :
    (hasReadWritePermission q hd w).2 = w := by
  cases hd with
  | none => rfl
  | some h => cases q <;> rfl

theorem lookup_map_set (l : List (String × SheetData)) (s s' : SheetData)
    (h : l.lookup EXCEL_SHEET_NAME = some s) :
    (l.map fun p => if p.1 = EXCEL_SHEET_NAME then (p.1, s') else p).lookup
      EXCEL_SHEET_NAME = some s' := by
  induction l with
  | nil => simp at h
  | cons hd tl ih =>
    obtain ⟨k, v⟩ := hd
    by_cases hk : k = EXCEL_SHEET_NAME
    · subst hk
      simp [List.lookup] at h ⊢
    · have hf : ((fun p => if p.1 = EXCEL_SHEET_NAME then (p.1, s') else p)
          ((k, v) : String × SheetData)) = (k, v) := by
        simp [hk]
      have hk2 : (EXCEL_SHEET_NAME == k) = false := by
        simp [beq_iff_eq]
        exact fun he => hk he.symm
      simp only [List.map_cons, hf]
      simp only [List.lookup, hk2] at h ⊢
      exact ih h

theorem lookup_append_absent (l : List (String × SheetData)) (s : SheetData)
    (h : l.lookup EXCEL_SHEET_NAME = none) :
    (l ++ [(EXCEL_SHEET_NAME, s)]).lookup EXCEL_SHEET_NAME = some s := by
  induction l with
  | nil => simp [List.lookup]
  | cons hd tl ih =>
    obtain ⟨k, v⟩ := hd
    by_cases hk : k = EXCEL_SHEET_NAME
    · subst hk
      simp [List.lookup] at h
    · simp only [List.cons_append, List.lookup] at h ⊢
      have hk2 : (EXCEL_SHEET_NAME == k) = false := by
        simp [beq_iff_eq]
        exact fun he => hk he.symm
      simp only [hk2] at h ⊢
      exact ih h

theorem appendStep2_cases (env : AppendEnv) (entry : Entry) (hd : Option Handle)
    (w : World) :
    (∃ e w1, appendStep2 env entry hd w = (.error e, w1) ∧
      w1.handleStore = w.handleStore ∧ w1.files = w.files ∧ w1.status = w.status) ∨
    (∃ w1, appendStep2 env entry hd w =
        (.ok false, setExcelStatus w1 "No permission to update Excel file." true) ∧
      w1.handleStore = w.handleStore ∧ w1.files = w.files) ∨
    (∃ h wb2 w1, hd = some h ∧
      appendStep2 env entry hd w =
        (.ok true, setExcelStatus (writeFile w1 h (.encoded wb2))
          ("Updated at " ++ env.nowTime) false) ∧
      w1.handleStore = w.handleStore ∧ w1.files = w.files ∧
      appendDoc (w.files h) (entryRow entry) = some wb2) := by
  have hEw := ensure_world env.query env.request hd w
  rcases hE : ensureReadWritePermission env.query env.request hd w with ⟨res, w1⟩
  rw [hE] at hEw
  simp only [] at hEw
  have hW1 : w1.handleStore = w.handleStore ∧ w1.files = w.files ∧ w1.status = w.status := by
    rcases hEw with h1 | h1 <;> rw [h1] <;> exact ⟨rfl, rfl, rfl⟩
  unfold appendStep2
  rw [hE]
  rcases res with e | p
  · exact Or.inl ⟨e, w1, rfl, hW1⟩
  · cases p with
    | false =>
      exact Or.inr (Or.inl ⟨w1, rfl, hW1.1, hW1.2.1⟩)
    | true =>
      cases hd with
      | none => exact Or.inl ⟨.err, w1, rfl, hW1⟩
      | some h =>
        cases hgf : env.getFileR with
        | error e => exact Or.inl ⟨e, w1, by simp, hW1⟩
        | ok u =>
          rcases hdec : (if (w1.files h).size > 0 then xlsxRead (w1.files h)
              else .ok createWorkbookWithHeaders : Except JsErr Workbook) with e | wb0
          · refine Or.inl ⟨e, w1, ?_, hW1⟩
            simp [hdec]
          · cases hwr : env.writeR with
            | error e =>
              refine Or.inl ⟨e, w1, ?_, hW1⟩
              simp [hdec, hwr]
            | ok u2 =>
              refine Or.inr (Or.inr ⟨h,
                setSheet (getOrCreateSheet wb0).2
                  (appendRowToSheet (getOrCreateSheet wb0).1 (entryRow entry)),
                w1, rfl, ?_, hW1.1, hW1.2.1, ?_⟩)
              · simp [hdec, hwr]
              · unfold appendDoc
                rw [hW1.2.1] at hdec
                rw [hdec]

theorem connectBody_cases (env : ConnectEnv) (w : World) :
    (∃ e w1, connectBody env w = (.error e, w1) ∧ w1.handleStore = w.handleStore ∧
      w1.files = w.files ∧ w1.status = w.status) ∨
    (∃ e w1 h, env.picker = .ok h ∧ connectBody env w = (.error e, w1) ∧
      w1.handleStore = some h ∧ w1.files = w.files ∧ w1.status = w.status) ∨
    (∃ w1, connectBody env w =
        (.ok false, setExcelStatus w1 "Permission denied for Excel file." true) ∧
      w1.handleStore = w.handleStore ∧ w1.files = w.files) ∨
    (∃ h w1, env.picker = .ok h ∧
      connectBody env w =
        (.ok true, setExcelStatus w1 ("Connected (" ++ handleName h ++ ")") false) ∧
      w1.handleStore = some h ∧
      (((w.files h).size = 0 ∧
          w1.files = fun h2 => if h2 = h then .encoded createWorkbookWithHeaders
            else w.files h2) ∨
        ((w.files h).size > 0 ∧ w1.files = w.files))) := by
  unfold connectBody
  cases hp : env.picker with
  | error e => exact Or.inl ⟨e, _, rfl, rfl, rfl, rfl⟩
  | ok h =>
    have hEw := ensure_world env.query env.request (some h) { w with prompts := w.prompts + 1 }
    rcases hE : ensureReadWritePermission env.query env.request (some h)
        { w with prompts := w.prompts + 1 } with ⟨res, w2⟩
    rw [hE] at hEw
    simp only [] at hEw
    have hW2 : w2.handleStore = w.handleStore ∧ w2.files = w.files ∧ w2.status = w.status := by
      rcases hEw with h1 | h1 <;> rw [h1] <;> exact ⟨rfl, rfl, rfl⟩
    dsimp only
    rw [hE]
    rcases res with e | p
    · exact Or.inl ⟨e, w2, rfl, hW2⟩
    · cases p with
      | false => exact Or.inr (Or.inr (Or.inl ⟨w2, rfl, hW2.1, hW2.2.1⟩))
      | true =>
        cases hput : env.put with
        | error e => exact Or.inl ⟨e, w2, by simp, hW2⟩
        | ok u =>
          cases hgf : env.getFileR with
          | error e =>
            refine Or.inr (Or.inl ⟨e, { w2 with handleStore := some h }, h, rfl, by simp,
              rfl, hW2.2.1, hW2.2.2⟩)
          | ok u2 =>
            by_cases hsz : ({ w2 with handleStore := some h }.files h).size = 0
            · cases hwr : env.writeR with
              | error e =>
                refine Or.inr (Or.inl ⟨e, { w2 with handleStore := some h }, h, rfl, ?_,
                  rfl, hW2.2.1, hW2.2.2⟩)
                simp [hsz, hwr]
              | ok u3 =>
                refine Or.inr (Or.inr (Or.inr ⟨h,
                  writeFile { w2 with handleStore := some h } h
                    (.encoded createWorkbookWithHeaders), rfl, ?_, rfl, Or.inl ⟨?_, ?_⟩⟩))
                · simp [hsz, hwr]
                · rw [← hW2.2.1]; exact hsz
                · funext h2
                  simp only [writeFile]
                  by_cases hh : h2 = h <;> simp [hh, hW2.2.1]
            · refine Or.inr (Or.inr (Or.inr ⟨h, { w2 with handleStore := some h }, rfl, ?_,
                rfl, Or.inr ⟨?_, hW2.2.1⟩⟩))
              · simp [hsz]
              · rw [← hW2.2.1]; exact Nat.pos_of_ne_zero hsz

theorem digitChar_isDigit {k : Nat} (hk : k < 10) : (digitChar k).isDigit = true := by
  interval_cases k <;> decide

theorem hasThreeDecimals_toFixed3 (q : ℚ) : hasThreeDecimals (toFixed3 q) = true := by
  unfold toFixed3
  set n : Nat := (Int.fdiv (2000 * q.num + (q.den : Int)) (2 * (q.den : Int))).natAbs with hn
  set a : String := (if Int.fdiv (2000 * q.num + (q.den : Int)) (2 * (q.den : Int)) < 0
    then "-" else "") ++ toString (n / 1000) with ha
  show hasThreeDecimals (a ++ "." ++ pad3 (n % 1000)) = true
  have hd : (a ++ "." ++ pad3 (n % 1000)).data
      = a.data ++ ['.'] ++ [digitChar (n % 1000 / 100 % 10), digitChar (n % 1000 / 10 % 10),
          digitChar (n % 1000 % 10)] := rfl
  unfold hasThreeDecimals
  rw [hd]
  simp only [List.reverse_append, List.reverse_cons, List.reverse_nil, List.nil_append,
    List.cons_append, List.singleton_append]
  simp [digitChar_isDigit (Nat.mod_lt _ (by norm_num))]

theorem appendDoc_empty (row : Row) :
    appendDoc .empty row =
      some { SheetNames := [EXCEL_SHEET_NAME],
             Sheets := [(EXCEL_SHEET_NAME, [EXCEL_HEADERS, row])] } := rfl

theorem appendDoc_invalid (row : Row) : appendDoc .invalid row = none := rfl

theorem appendDoc_encoded (wb : Workbook) (rows : SheetData) (row : Row)
    (hl : wb.Sheets.lookup EXCEL_SHEET_NAME = some rows) (hne : rows ≠ []) :
    ∃ wb2, appendDoc (.encoded wb) row = some wb2 ∧
      wb2.Sheets.lookup EXCEL_SHEET_NAME = some (rows ++ [row]) := by
  unfold appendDoc
  have h1 : (if (FileBytes.encoded wb).size > 0 then xlsxRead (FileBytes.encoded wb)
      else .ok createWorkbookWithHeaders : Except JsErr Workbook) = .ok wb := rfl
  rw [h1]
  dsimp only
  unfold getOrCreateSheet
  rw [hl]
  refine ⟨_, rfl, ?_⟩
  unfold setSheet appendRowToSheet
  have h2 : (rows.length = 0) = False := by
    simp [List.length_eq_zero, hne]
  simp only [h2, if_false]
  exact lookup_map_set _ _ _ hl


theorem append_features_of_success (env : AppendEnv) (entry : Entry) (auto : Bool)
    (w : World) (hok : (appendCustomerToExcel env entry auto w).1 = .ok true) :
    appendCustomerToExcel env entry auto w = appendCatch (appendBody env entry auto w) := by
  cases hx : w.hasXLSX with
  | false => simp [appendCustomerToExcel, hx] at hok
  | true =>
  cases hi : w.hasIndexedDB with
  | false => simp [appendCustomerToExcel, hx, hi] at hok
  | true =>
  cases hpk : w.hasPicker with
  | false => simp [appendCustomerToExcel, hx, hi, hpk] at hok
  | true =>
  simp [appendCustomerToExcel, hx, hi, hpk]

theorem append_success_effect (env : AppendEnv) (entry : Entry) (auto : Bool)
    (w : World) (h : Handle) (hs : w.handleStore = some h)
    (hok : (appendCustomerToExcel env entry auto w).1 = .ok true) :
    (appendCustomerToExcel env entry auto w).2.handleStore = some h ∧
    ∃ wb2, appendDoc (w.files h) (entryRow entry) = some wb2 ∧
      (appendCustomerToExcel env entry auto w).2.files =
        fun h2 => if h2 = h then .encoded wb2 else w.files h2 := by
  have hred := append_features_of_success env entry auto w hok
  rw [hred] at hok ⊢
  unfold appendBody at hok ⊢
  cases hg1 : env.getHandle1 with
  | error e =>
    rw [hg1] at hok
    simp [appendCatch] at hok
  | ok u =>
  rw [hg1] at hok
  dsimp only at hok ⊢
  rw [hs] at hok ⊢
  dsimp only at hok ⊢
  rcases appendStep2_cases env entry (some h) w with
    ⟨e, w1, hEq, _, _, _⟩ | ⟨w1, hEq, _, _⟩ | ⟨h', wb2, w1, hh', hEq, hst, hfl, hdoc⟩
  · rw [hEq] at hok; simp [appendCatch] at hok
  · rw [hEq] at hok; simp [appendCatch] at hok
  · rw [hEq]
    cases hh' with
    | refl =>
    refine ⟨?_, wb2, hdoc, ?_⟩
    · simp [appendCatch, setExcelStatus, writeFile, hst, hs]
    · funext h2
      simp [appendCatch, setExcelStatus, writeFile, hfl]



theorem appendMany_inv (calls : List (AppendEnv × Entry × Bool)) (w : World) (h : Handle)
    (rows : List Row) (hs : w.handleStore = some h)
    (hst : (w.files h = FileBytes.empty ∧ rows = []) ∨
      (∃ wb, w.files h = .encoded wb ∧
        wb.Sheets.lookup EXCEL_SHEET_NAME = some (EXCEL_HEADERS :: rows)))
    (hok : allSucceed calls w = true) :
    (appendMany calls w).handleStore = some h ∧
    ((calls = [] ∧ rows = [] ∧ (appendMany calls w).files h = FileBytes.empty) ∨
      (∃ wb, (appendMany calls w).files h = .encoded wb ∧
        wb.Sheets.lookup EXCEL_SHEET_NAME =
          some (EXCEL_HEADERS :: (rows ++ calls.map fun c => entryRow c.2.1)))) := by
  induction calls generalizing w rows with
  | nil =>
    refine ⟨hs, ?_⟩
    rcases hst with ⟨he, hr⟩ | ⟨wb, he, hl⟩
    · exact Or.inl ⟨rfl, hr, he⟩
    · exact Or.inr ⟨wb, he, by simpa using hl⟩
  | cons c rest ih =>
    simp only [allSucceed] at hok
    split at hok
    case isFalse => exact absurd hok (by simp)
    case isTrue hhead =>
    obtain ⟨hstore', wb2, hdoc, hfiles⟩ := append_success_effect c.1 c.2.1 c.2.2 w h hs hhead
    have hfh : (appendCustomerToExcel c.1 c.2.1 c.2.2 w).2.files h = .encoded wb2 := by
      rw [hfiles]; simp
    have hlk2 : wb2.Sheets.lookup EXCEL_SHEET_NAME =
        some (EXCEL_HEADERS :: (rows ++ [entryRow c.2.1])) := by
      rcases hst with ⟨he, hr⟩ | ⟨wb, he, hl⟩
      · rw [he] at hdoc
        rw [appendDoc_empty] at hdoc
        injection hdoc with hdoc
        subst hdoc hr
        simp [List.lookup]
      · rw [he] at hdoc
        obtain ⟨wb2', hdoc', hl2⟩ := appendDoc_encoded wb (EXCEL_HEADERS :: rows)
          (entryRow c.2.1) hl (by simp)
        rw [hdoc'] at hdoc
        injection hdoc with hdoc
        subst hdoc
        simpa using hl2
    have := ih (appendCustomerToExcel c.1 c.2.1 c.2.2 w).2 (rows ++ [entryRow c.2.1])
      hstore' (Or.inr ⟨wb2, hfh, hlk2⟩) hok
    refine ⟨this.1, ?_⟩
    rcases this.2 with ⟨_, hcontra, _⟩ | ⟨wb3, hf3, hl3⟩
    · simp at hcontra
    · refine Or.inr ⟨wb3, ?_, ?_⟩
      · simpa [appendMany] using hf3
      · rw [hl3]
        simp



theorem connect_isOk (env : ConnectEnv) (w : World) :
    ∃ b, (connectExcelFile env w).1 = .ok b := by
  unfold connectExcelFile
  split
  · exact ⟨false, rfl⟩
  split
  · exact ⟨false, rfl⟩
  rcases hB : connectBody env w with ⟨res, w1⟩
  rcases res with e | b
  · cases e <;> exact ⟨false, rfl⟩
  · exact ⟨b, rfl⟩

theorem connect_status (env : ConnectEnv) (w : World) :
    hasExcelStatus (connectExcelFile env w).2 := by
  unfold connectExcelFile
  split
  · exact ⟨_, rfl⟩
  split
  · exact ⟨_, rfl⟩
  rcases connectBody_cases env w with
    ⟨e, w1, hEq, _, _, _⟩ | ⟨e, w1, h, hp, hEq, _, _, _⟩ | ⟨w1, hEq, _, _⟩ | ⟨h, w1, hp, hEq, _, _⟩
  all_goals rw [hEq]
  · cases e <;> exact ⟨_, rfl⟩
  · cases e <;> exact ⟨_, rfl⟩
  · exact ⟨_, rfl⟩
  · exact ⟨_, rfl⟩

theorem connect_success_store (env : ConnectEnv) (w : World)
    (hok : (connectExcelFile env w).1 = .ok true) :
    ∃ h, env.picker = .ok h ∧ (connectExcelFile env w).2.handleStore = some h := by
  unfold connectExcelFile at hok ⊢
  split at hok
  case isTrue => simp at hok
  case isFalse h1 =>
  rw [if_neg h1]
  split at hok
  case isTrue => simp at hok
  case isFalse h2 =>
  rw [if_neg h2]
  rcases connectBody_cases env w with
    ⟨e, w1, hEq, _, _, _⟩ | ⟨e, w1, h, hp, hEq, _, _, _⟩ | ⟨w1, hEq, _, _⟩ | ⟨h, w1, hp, hEq, hst, _⟩
  all_goals rw [hEq] at hok ⊢
  · cases e <;> simp at hok
  · cases e <;> simp at hok
  · simp at hok
  · exact ⟨h, hp, hst⟩

theorem connect_files (env : ConnectEnv) (w : World) :
    (connectExcelFile env w).2.files = w.files ∨
    (∃ h, env.picker = .ok h ∧ (w.files h).size = 0 ∧
      (connectExcelFile env w).2.files =
        fun h2 => if h2 = h then .encoded createWorkbookWithHeaders else w.files h2) := by
  unfold connectExcelFile
  split
  · exact Or.inl rfl
  split
  · exact Or.inl rfl
  rcases connectBody_cases env w with
    ⟨e, w1, hEq, _, hf, _⟩ | ⟨e, w1, h, hp, hEq, _, hf, _⟩ | ⟨w1, hEq, _, hf⟩ |
    ⟨h, w1, hp, hEq, hst, hdisj⟩
  all_goals rw [hEq]
  · cases e <;> exact Or.inl hf
  · cases e <;> exact Or.inl hf
  · exact Or.inl hf
  · rcases hdisj with ⟨hsz, hf⟩ | ⟨hsz, hf⟩
    · exact Or.inr ⟨h, hp, hsz, hf⟩
    · exact Or.inl hf

theorem connect_handleStore (env : ConnectEnv) (w : World) :
    (connectExcelFile env w).2.handleStore = w.handleStore ∨
    (∃ h, env.picker = .ok h ∧ (connectExcelFile env w).2.handleStore = some h) := by
  unfold connectExcelFile
  split
  · exact Or.inl rfl
  split
  · exact Or.inl rfl
  rcases connectBody_cases env w with
    ⟨e, w1, hEq, hh, _, _⟩ | ⟨e, w1, h, hp, hEq, hh, _, _⟩ | ⟨w1, hEq, hh, _⟩ |
    ⟨h, w1, hp, hEq, hh, _⟩
  all_goals rw [hEq]
  · cases e <;> exact Or.inl hh
  · cases e <;> exact Or.inr ⟨h, hp, hh⟩
  · exact Or.inl hh
  · exact Or.inr ⟨h, hp, hh⟩



theorem appendCatch_status (p : Except JsErr Bool × World)
    (hp : (∃ b w1, p = (.ok b, w1) ∧ hasExcelStatus w1) ∨ ∃ e w1, p = (.error e, w1)) :
    hasExcelStatus (appendCatch p).2 := by
  rcases hp with ⟨b, w1, hpe, hst⟩ | ⟨e, w1, hpe⟩
  · rw [hpe]; exact hst
  · rw [hpe]; exact ⟨_, rfl⟩

theorem append_isOk (env : AppendEnv) (entry : Entry) (auto : Bool) (w : World) :
    ∃ b, (appendCustomerToExcel env entry auto w).1 = .ok b := by
  unfold appendCustomerToExcel
  split
  · exact ⟨false, rfl⟩
  split
  · exact ⟨false, rfl⟩
  rcases hB : appendBody env entry auto w with ⟨res, w1⟩
  rcases res with e | b
  · exact ⟨false, rfl⟩
  · exact ⟨b, rfl⟩

theorem append_status (env : AppendEnv) (entry : Entry) (auto : Bool) (w : World) :
    hasExcelStatus (appendCustomerToExcel env entry auto w).2 := by
  unfold appendCustomerToExcel
  split
  · exact ⟨_, rfl⟩
  split
  · exact ⟨_, rfl⟩
  apply appendCatch_status
  unfold appendBody
  cases hg1 : env.getHandle1 with
  | error e => exact Or.inr ⟨e, w, rfl⟩
  | ok u =>
  dsimp only
  cases hst : w.handleStore with
  | some h =>
    dsimp only
    rcases appendStep2_cases env entry (some h) w with
      ⟨e, w1, hEq, _⟩ | ⟨w1, hEq, _⟩ | ⟨h', wb2, w1, _, hEq, _⟩
    · rw [hEq]; exact Or.inr ⟨e, w1, rfl⟩
    · rw [hEq]; exact Or.inl ⟨false, _, rfl, _, rfl⟩
    · rw [hEq]; exact Or.inl ⟨true, _, rfl, _, rfl⟩
  | none =>
    dsimp only
    cases auto with
    | false => simp only [Bool.false_eq_true, if_false]; exact Or.inl ⟨false, _, rfl, _, rfl⟩
    | true =>
      simp only [if_pos rfl]
      have hCs := connect_status env.connectEnv w
      rcases hC : connectExcelFile env.connectEnv w with ⟨resC, w1⟩
      rw [hC] at hCs
      simp only [] at hCs
      rcases resC with e | b
      · exact Or.inr ⟨e, w1, rfl⟩
      · cases b with
        | false =>
          exact Or.inl ⟨false, w1, rfl, hCs⟩
        | true =>
          cases hg2 : env.getHandle2 with
          | error e => exact Or.inr ⟨e, w1, rfl⟩
          | ok u2 =>
            dsimp only
            rcases appendStep2_cases env entry w1.handleStore w1 with
              ⟨e, w2, hEq, _⟩ | ⟨w2, hEq, _⟩ | ⟨h', wb2, w2, _, hEq, _⟩
            · rw [hEq]; exact Or.inr ⟨e, w2, rfl⟩
            · rw [hEq]; exact Or.inl ⟨false, _, rfl, _, rfl⟩
            · rw [hEq]; exact Or.inl ⟨true, _, rfl, _, rfl⟩

theorem restore_props (env : RestoreEnv) (w : World) :
    (restoreExcelConnectionStatus env w).1 = .ok () ∧
    (restoreExcelConnectionStatus env w).2.prompts = w.prompts ∧
    hasExcelStatus (restoreExcelConnectionStatus env w).2 := by
  unfold restoreExcelConnectionStatus restoreBody
  split
  · exact ⟨rfl, rfl, _, rfl⟩
  cases hg : env.getHandle with
  | error e => exact ⟨rfl, rfl, _, rfl⟩
  | ok u =>
  dsimp only
  cases hst : w.handleStore with
  | none => exact ⟨rfl, rfl, _, rfl⟩
  | some h =>
    dsimp only
    have hW := hasRW_world env.query (some h) w
    rcases hH : hasReadWritePermission env.query (some h) w with ⟨b, w1⟩
    rw [hH] at hW
    simp only [] at hW
    subst hW
    cases b with
    | false => exact ⟨rfl, rfl, _, rfl⟩
    | true => exact ⟨rfl, rfl, _, rfl⟩


/-!  The claims. -/


/-- C1: for every sheet, `appendRowToSheet` with the record row built by
`appendCustomerToExcel` appends the five fields in fixed order as a new
row after all existing rows; a sheet with zero rows first receives the
fixed header row; pre-existing rows are kept verbatim as a prefix (never
duplicated or reordered, whatever document they came from); the volume
cell is the volume formatted with exactly three decimal places as text. -/
theorem claim1_appendRow_spec (sheet : SheetData) (e : Entry) :
    appendRowToSheet sheet (entryRow e) =
      (if sheet = [] then [EXCEL_HEADERS] else sheet) ++ [entryRow e] ∧
    entryRow e = [e.date, e.name, e.whatsapp, e.address, toFixed3 e.totalVolume] ∧
    hasThreeDecimals (toFixed3 e.totalVolume) = true := by
  refine ⟨?_, rfl, hasThreeDecimals_toFixed3 e.totalVolume⟩
  unfold appendRowToSheet
  by_cases hne : sheet = []
  · simp [hne]
  · simp [hne, List.length_eq_zero]




/-- C4 counterexample: on a decoded document without the named sheet,
the sheet that `getOrCreateSheet` (lines 186-191) creates and registers
is not empty: it already contains the fixed header row. -/
theorem claim4_counterexample :
    noSheetWorkbook.Sheets.lookup EXCEL_SHEET_NAME = none ∧
    (getOrCreateSheet noSheetWorkbook).1 ≠ ([] : SheetData) ∧
    (getOrCreateSheet noSheetWorkbook).1 = [EXCEL_HEADERS] ∧
    (getOrCreateSheet noSheetWorkbook).2.Sheets.lookup EXCEL_SHEET_NAME =
      some [EXCEL_HEADERS] := by
  refine ⟨rfl, ?_, rfl, rfl⟩
  decide

/-- C4 amended: when the named sheet is absent, `getOrCreateSheet`
creates and registers a sheet that already contains the fixed header row
as its only row; the subsequent append step then sees a non-empty sheet
and does not insert the header again. -/
theorem claim4_amended (wb : Workbook) (row : Row)
    (habs : wb.Sheets.lookup EXCEL_SHEET_NAME = none) :
    (getOrCreateSheet wb).1 = [EXCEL_HEADERS] ∧
    (getOrCreateSheet wb).2.Sheets.lookup EXCEL_SHEET_NAME = some [EXCEL_HEADERS] ∧
    (getOrCreateSheet wb).2.SheetNames = wb.SheetNames ++ [EXCEL_SHEET_NAME] ∧
    appendRowToSheet (getOrCreateSheet wb).1 row = [EXCEL_HEADERS, row] := by
  unfold getOrCreateSheet
  rw [habs]
  exact ⟨rfl, lookup_append_absent _ _ habs, rfl, rfl⟩

/-- C4 witness. -/
theorem claim4_witness :
    noSheetWorkbook.Sheets.lookup EXCEL_SHEET_NAME = none ∧
    ((getOrCreateSheet noSheetWorkbook).1 = [EXCEL_HEADERS] ∧
      (getOrCreateSheet noSheetWorkbook).2.Sheets.lookup EXCEL_SHEET_NAME =
        some [EXCEL_HEADERS] ∧
      (getOrCreateSheet noSheetWorkbook).2.SheetNames =
        noSheetWorkbook.SheetNames ++ [EXCEL_SHEET_NAME] ∧
      appendRowToSheet (getOrCreateSheet noSheetWorkbook).1 ["r"] =
        [EXCEL_HEADERS, ["r"]]) :=
  ⟨rfl, claim4_amended noSheetWorkbook ["r"] rfl⟩


/-- C3 counterexample: the picker returns handle 7 on an empty store, the
permission is granted and the handle is saved, but the initialization
write fails; `connectExcelFile` returns failure yet the Handle Store
retains handle 7, whose file the write step never validated. -/
theorem claim3_counterexample :
    baseWorld.handleStore = none ∧
    (connectExcelFile failWriteConnectEnv baseWorld).1 = .ok false ∧
    (connectExcelFile failWriteConnectEnv baseWorld).2.handleStore = some 7 := by
  refine ⟨rfl, rfl, rfl⟩

/-- C3 amended: an unexpected failure after the user picks a target makes
`connect()` return failure.  A failure of the `saveFileHandle` store
transaction itself does not commit, leaving the Handle Store unchanged;
but once that transaction has committed — and it runs before the target
is inspected — a failure of `getFile` or of the initialization write
leaves the newly picked handle persisted in the Handle Store, pointing
at a file the write step never validated (the target's bytes themselves
are not modified by the failed write). -/
theorem claim3_amended (env : ConnectEnv) (w : World) (h : Handle)
    (hx : w.hasXLSX = true) (hi : w.hasIndexedDB = true) (hp : w.hasPicker = true)
    (hpick : env.picker = .ok h) (hq : env.query = .ok true) :
    ((∃ e, env.put = .error e) →
      (connectExcelFile env w).1 = .ok false ∧
      (connectExcelFile env w).2.handleStore = w.handleStore ∧
      (connectExcelFile env w).2.files = w.files) ∧
    (env.put = .ok () →
      ((∃ e, env.getFileR = .error e) ∨
        (env.getFileR = .ok () ∧ (w.files h).size = 0 ∧ ∃ e, env.writeR = .error e)) →
      (connectExcelFile env w).1 = .ok false ∧
      (connectExcelFile env w).2.handleStore = some h ∧
      (connectExcelFile env w).2.files = w.files) := by
  constructor
  · intro hput
    obtain ⟨e, hput⟩ := hput
    unfold connectExcelFile connectBody ensureReadWritePermission
    cases e <;> simp [hx, hi, hp, hpick, hq, hput, setExcelStatus]
  · intro hput hfail
    unfold connectExcelFile connectBody ensureReadWritePermission
    rcases hfail with ⟨e, hgf⟩ | ⟨hgf, hsz, e, hwr⟩
    · cases e <;> simp [hx, hi, hp, hpick, hq, hput, hgf, setExcelStatus, writeFile]
    · cases e <;>
        simp [hx, hi, hp, hpick, hq, hput, hgf, hsz, hwr, setExcelStatus, writeFile]


/-- C3 witness: with the write step failing, the first part shows a
failed store transaction leaves the store unchanged, the second that a
committed store transaction followed by a failed initialization write
leaves handle 7 persisted. -/
theorem claim3_witness :
    failWriteConnectEnv.picker = .ok 7 ∧ failWriteConnectEnv.query = .ok true ∧
    failPutConnectEnv.picker = .ok 7 ∧ failPutConnectEnv.query = .ok true ∧
    ((∃ e, failPutConnectEnv.put = Except.error e) →
      (connectExcelFile failPutConnectEnv baseWorld).1 = .ok false ∧
      (connectExcelFile failPutConnectEnv baseWorld).2.handleStore =
        baseWorld.handleStore ∧
      (connectExcelFile failPutConnectEnv baseWorld).2.files = baseWorld.files) ∧
    (failWriteConnectEnv.put = .ok () →
      ((∃ e, failWriteConnectEnv.getFileR = Except.error e) ∨
        (failWriteConnectEnv.getFileR = .ok () ∧ (baseWorld.files 7).size = 0 ∧
          ∃ e, failWriteConnectEnv.writeR = Except.error e)) →
      (connectExcelFile failWriteConnectEnv baseWorld).1 = .ok false ∧
      (connectExcelFile failWriteConnectEnv baseWorld).2.handleStore = some 7 ∧
      (connectExcelFile failWriteConnectEnv baseWorld).2.files = baseWorld.files) :=
  ⟨rfl, rfl, rfl, rfl,
    (claim3_amended failPutConnectEnv baseWorld 7 rfl rfl rfl rfl rfl).1,
    (claim3_amended failWriteConnectEnv baseWorld 7 rfl rfl rfl rfl rfl).2⟩



/-- C9: with the APIs available, a user-cancelled file picker
(`AbortError`) makes `connect()` return failure with the neutral
"Connection cancelled." status (`statusIsError = false`, unlike the
genuine error branch), and the whole persisted state — Handle Store and
every file — is exactly the input state (only the prompt count grew). -/
theorem claim9_cancel (env : ConnectEnv) (w : World)
    (hx : w.hasXLSX = true) (hi : w.hasIndexedDB = true) (hp : w.hasPicker = true)
    (hab : env.picker = .error .abort) :
    connectExcelFile env w =
      (.ok false, { w with prompts := w.prompts + 1,
                           status := "Excel: Connection cancelled.",
                           statusIsError := false }) := by
  unfold connectExcelFile connectBody
  simp [hx, hi, hp, hab, setExcelStatus]


/-- C9 witness. -/
theorem claim9_witness :
    baseWorld.hasXLSX = true ∧ abortConnectEnv.picker = .error .abort ∧
    connectExcelFile abortConnectEnv baseWorld =
      (.ok false, { baseWorld with prompts := baseWorld.prompts + 1,
                                   status := "Excel: Connection cancelled.",
                                   statusIsError := false }) :=
  ⟨rfl, rfl, claim9_cancel abortConnectEnv baseWorld rfl rfl rfl rfl⟩

/-- C10: when the user picks a target whose current size is non-zero,
`connect()` never writes to it — the file map is left unchanged whatever
the collaborators do; only a zero-size target is initialized, and then
with exactly the header-only document. -/
theorem claim10_connect_write_scope (env : ConnectEnv) (w : World) (h : Handle)
    (hpick : env.picker = .ok h) :
    (0 < (w.files h).size → (connectExcelFile env w).2.files = w.files) ∧
    ((connectExcelFile env w).1 = .ok true → (w.files h).size = 0 →
      (connectExcelFile env w).2.files =
        fun h2 => if h2 = h then .encoded createWorkbookWithHeaders else w.files h2) := by
  constructor
  · intro hsz
    rcases connect_files env w with hf | ⟨h', hp', hsz', hf⟩
    · exact hf
    · rw [hpick] at hp'
      injection hp' with hp'
      subst hp'
      omega
  · intro hok hsz
    unfold connectExcelFile at hok ⊢
    split at hok
    case isTrue => simp at hok
    case isFalse h1 =>
    rw [if_neg h1]
    split at hok
    case isTrue => simp at hok
    case isFalse h2 =>
    rw [if_neg h2]
    rcases connectBody_cases env w with
      ⟨e, w1, hEq, _⟩ | ⟨e, w1, h', hp', hEq, _⟩ | ⟨w1, hEq, _⟩ |
      ⟨h', w1, hp', hEq, hst, hdisj⟩
    all_goals rw [hEq] at hok ⊢
    · cases e <;> simp at hok
    · cases e <;> simp at hok
    · simp at hok
    · rw [hpick] at hp'
      injection hp' with hp'
      subst hp'
      rcases hdisj with ⟨_, hf⟩ | ⟨hsz', _⟩
      · exact hf
      · omega


/-- C10 witness. -/
theorem claim10_witness :
    okConnectEnv.picker = .ok 7 ∧
    ((0 < (bigFileWorld.files 7).size →
        (connectExcelFile okConnectEnv bigFileWorld).2.files = bigFileWorld.files) ∧
      ((connectExcelFile okConnectEnv bigFileWorld).1 = .ok true →
        (bigFileWorld.files 7).size = 0 →
        (connectExcelFile okConnectEnv bigFileWorld).2.files =
          fun h2 => if h2 = 7 then .encoded createWorkbookWithHeaders
            else bigFileWorld.files h2)) :=
  ⟨rfl, claim10_connect_write_scope okConnectEnv bigFileWorld 7 rfl⟩



/-- C7: a stored handle survives every `appendCustomerToExcel` call
unchanged, whatever the collaborators do and whether the call succeeds
or fails: the append path never writes to the Handle Store when a handle
was present. -/
theorem claim7_handle_intact (env : AppendEnv) (entry : Entry) (auto : Bool)
    (w : World) (h : Handle) (hs : w.handleStore = some h) :
    (appendCustomerToExcel env entry auto w).2.handleStore = some h := by
  unfold appendCustomerToExcel
  split
  · exact hs
  split
  · exact hs
  unfold appendBody
  cases hg1 : env.getHandle1 with
  | error e => simp [appendCatch, setExcelStatus, hs]
  | ok u =>
  dsimp only
  rw [hs]
  dsimp only
  rcases appendStep2_cases env entry (some h) w with
    ⟨e, w1, hEq, hh, _⟩ | ⟨w1, hEq, hh, _⟩ | ⟨h', wb2, w1, _, hEq, hh, _⟩
  all_goals rw [hEq]
  · simp [appendCatch, setExcelStatus, hh, hs]
  · simp [appendCatch, setExcelStatus, hh, hs]
  · simp [appendCatch, setExcelStatus, writeFile, hh, hs]


/-- C7 witness. -/
theorem claim7_witness :
    connectedWorld.handleStore = some 7 ∧
    (appendCustomerToExcel { okAppendEnv with writeR := .error .err } sampleEntry false
      connectedWorld).2.handleStore = some 7 :=
  ⟨rfl, claim7_handle_intact { okAppendEnv with writeR := .error .err } sampleEntry false
    connectedWorld 7 rfl⟩

/-- C5: an append against a stored handle whose target holds non-empty,
undecodable bytes always fails, never attempts a write (the whole file
map is untouched), and on the happy path up to the decode the failure is
the decode throw surfacing as the generic update-failure status. -/
theorem claim5_invalid_bytes (env : AppendEnv) (entry : Entry) (auto : Bool)
    (w : World) (h : Handle) (hs : w.handleStore = some h)
    (hb : w.files h = .invalid) :
    (appendCustomerToExcel env entry auto w).1 = .ok false ∧
    (appendCustomerToExcel env entry auto w).2.files = w.files ∧
    (w.hasXLSX = true → w.hasIndexedDB = true → w.hasPicker = true →
      env.getHandle1 = .ok () → env.query = .ok true → env.getFileR = .ok () →
      appendCustomerToExcel env entry auto w =
        (.ok false, setExcelStatus w "Could not update Excel file." true)) := by
  refine ⟨?_, ?_, ?_⟩
  case refine_3 =>
    intro hx hi hp hg1 hq hgf
    unfold appendCustomerToExcel appendBody appendStep2 ensureReadWritePermission appendCatch
    simp [hx, hi, hp, hg1, hq, hgf, hs, hb, xlsxRead, FileBytes.size]
  all_goals
    unfold appendCustomerToExcel
    split
    · exact rfl
    · split
      · exact rfl
      · unfold appendBody
        cases hg1 : env.getHandle1 with
        | error e => simp [appendCatch, setExcelStatus]
        | ok u =>
          dsimp only
          rw [hs]
          dsimp only
          rcases appendStep2_cases env entry (some h) w with
            ⟨e, w1, hEq, _, hf, _⟩ | ⟨w1, hEq, _, hf⟩ | ⟨h', wb2, w1, hh', hEq, _, _, hdoc⟩
          · rw [hEq]; simp [appendCatch, setExcelStatus, hf]
          · rw [hEq]; simp [appendCatch, setExcelStatus, hf]
          · injection hh' with hh'
            subst hh'
            rw [hb] at hdoc
            rw [appendDoc_invalid] at hdoc
            exact absurd hdoc (by simp)



/-- C5 witness. -/
theorem claim5_witness :
    invalidFileWorld.handleStore = some 7 ∧ invalidFileWorld.files 7 = .invalid ∧
    ((appendCustomerToExcel okAppendEnv sampleEntry false invalidFileWorld).1 =
        .ok false ∧
      (appendCustomerToExcel okAppendEnv sampleEntry false invalidFileWorld).2.files =
        invalidFileWorld.files ∧
      (invalidFileWorld.hasXLSX = true → invalidFileWorld.hasIndexedDB = true →
        invalidFileWorld.hasPicker = true → okAppendEnv.getHandle1 = .ok () →
        okAppendEnv.query = .ok true → okAppendEnv.getFileR = .ok () →
        appendCustomerToExcel okAppendEnv sampleEntry false invalidFileWorld =
          (.ok false, setExcelStatus invalidFileWorld "Could not update Excel file." true))) :=
  ⟨rfl, rfl, claim5_invalid_bytes okAppendEnv sampleEntry false invalidFileWorld 7 rfl rfl⟩



/-- C8: for every behaviour of the collaborators, `connect()`,
`appendRecord()` and `restoreStatus()` resolve to a tagged outcome
(`Except.ok`) rather than letting an exception escape, and leave a
displayable `Excel: `-formatted status; `restoreStatus()` additionally
never prompts the user (the prompt counter is unchanged). -/
theorem claim8_never_throws (cenv : ConnectEnv) (aenv : AppendEnv) (renv : RestoreEnv)
    (entry : Entry) (auto : Bool) (w : World) :
    (∃ b, (connectExcelFile cenv w).1 = .ok b) ∧
    hasExcelStatus (connectExcelFile cenv w).2 ∧
    (∃ b, (appendCustomerToExcel aenv entry auto w).1 = .ok b) ∧
    hasExcelStatus (appendCustomerToExcel aenv entry auto w).2 ∧
    (restoreExcelConnectionStatus renv w).1 = .ok () ∧
    hasExcelStatus (restoreExcelConnectionStatus renv w).2 ∧
    (restoreExcelConnectionStatus renv w).2.prompts = w.prompts :=
  ⟨connect_isOk cenv w, connect_status cenv w, append_isOk aenv entry auto w,
    append_status aenv entry auto w, (restore_props renv w).1,
    (restore_props renv w).2.2, (restore_props renv w).2.1⟩

/-- C6: with no handle stored and the store read succeeding:
`autoConnect = false` fails with the NotConnected ("connect first")
status; `autoConnect = true` invokes the connection flow, propagates its
failure verbatim, and on its success a handle is present in the store
and the append continues on the handle reloaded from the store. -/
theorem claim6_no_handle (env : AppendEnv) (entry : Entry) (w : World)
    (hx : w.hasXLSX = true) (hi : w.hasIndexedDB = true) (hp : w.hasPicker = true)
    (hg1 : env.getHandle1 = .ok ()) (hst : w.handleStore = none) :
    appendCustomerToExcel env entry false w =
      (.ok false, setExcelStatus w "Not connected. Click Connect Excel." true) ∧
    ((connectExcelFile env.connectEnv w).1 = .ok false →
      appendCustomerToExcel env entry true w =
        (.ok false, (connectExcelFile env.connectEnv w).2)) ∧
    ((connectExcelFile env.connectEnv w).1 = .ok true →
      (∃ h2, (connectExcelFile env.connectEnv w).2.handleStore = some h2) ∧
      (env.getHandle2 = .ok () →
        appendCustomerToExcel env entry true w =
          appendCatch (appendStep2 env entry
            (connectExcelFile env.connectEnv w).2.handleStore
            (connectExcelFile env.connectEnv w).2))) := by
  refine ⟨?_, ?_, ?_⟩
  · unfold appendCustomerToExcel appendBody
    simp [hx, hi, hp, hg1, hst, appendCatch]
  · intro hC
    rcases hC2 : connectExcelFile env.connectEnv w with ⟨res, w1⟩
    rw [hC2] at hC
    simp only [] at hC
    subst hC
    unfold appendCustomerToExcel appendBody
    simp [hx, hi, hp, hg1, hst, hC2, appendCatch]
  · intro hC
    have hstore := connect_success_store env.connectEnv w hC
    refine ⟨⟨hstore.choose, hstore.choose_spec.2⟩, ?_⟩
    intro hg2
    rcases hC2 : connectExcelFile env.connectEnv w with ⟨res, w1⟩
    rw [hC2] at hC
    simp only [] at hC
    subst hC
    unfold appendCustomerToExcel appendBody
    simp [hx, hi, hp, hg1, hg2, hst, hC2, appendCatch]

/-- C6 witness. -/
theorem claim6_witness :
    baseWorld.hasXLSX = true ∧ okAppendEnv.getHandle1 = .ok () ∧
    baseWorld.handleStore = none ∧
    (appendCustomerToExcel okAppendEnv sampleEntry false baseWorld =
        (.ok false, setExcelStatus baseWorld "Not connected. Click Connect Excel." true) ∧
      ((connectExcelFile okAppendEnv.connectEnv baseWorld).1 = .ok false →
        appendCustomerToExcel okAppendEnv sampleEntry true baseWorld =
          (.ok false, (connectExcelFile okAppendEnv.connectEnv baseWorld).2)) ∧
      ((connectExcelFile okAppendEnv.connectEnv baseWorld).1 = .ok true →
        (∃ h2, (connectExcelFile okAppendEnv.connectEnv baseWorld).2.handleStore =
          some h2) ∧
        (okAppendEnv.getHandle2 = .ok () →
          appendCustomerToExcel okAppendEnv sampleEntry true baseWorld =
            appendCatch (appendStep2 okAppendEnv sampleEntry
              (connectExcelFile okAppendEnv.connectEnv baseWorld).2.handleStore
              (connectExcelFile okAppendEnv.connectEnv baseWorld).2)))) :=
  ⟨rfl, rfl, rfl,
    claim6_no_handle okAppendEnv sampleEntry baseWorld rfl rfl rfl rfl rfl⟩



/-- C2: starting from a stored handle whose target is empty or holds the
header-only document, any sequence of N successful `appendRecord` calls
leaves the target holding a document whose fixed-name sheet is exactly
the header row followed by the N records' rows in call order — N + 1
rows in total, each row in the fixed column order of `entryRow`.  (The
only other possibility is the vacuous one: zero calls on a still-empty
target.) -/
theorem claim2_append_sequence (calls : List (AppendEnv × Entry × Bool)) (w : World)
    (h : Handle) (hs : w.handleStore = some h)
    (hf : w.files h = FileBytes.empty ∨ w.files h = .encoded createWorkbookWithHeaders)
    (hok : allSucceed calls w = true) :
    (calls = [] ∧ w.files h = FileBytes.empty ∧
      (appendMany calls w).files h = FileBytes.empty) ∨
    ∃ wb, (appendMany calls w).files h = .encoded wb ∧
      wb.Sheets.lookup EXCEL_SHEET_NAME =
        some (EXCEL_HEADERS :: calls.map fun c => entryRow c.2.1) ∧
      (EXCEL_HEADERS :: calls.map fun c => entryRow c.2.1).length = calls.length + 1 := by
  have hst : (w.files h = FileBytes.empty ∧ ([] : List Row) = []) ∨
      (∃ wb, w.files h = .encoded wb ∧
        wb.Sheets.lookup EXCEL_SHEET_NAME = some (EXCEL_HEADERS :: ([] : List Row))) := by
    rcases hf with hf | hf
    · exact Or.inl ⟨hf, rfl⟩
    · exact Or.inr ⟨createWorkbookWithHeaders, hf, rfl⟩
  have hinv := appendMany_inv calls w h [] hs hst hok
  rcases hinv.2 with ⟨hc, _, hfe⟩ | ⟨wb, hfw, hlk⟩
  · subst hc
    rcases hf with hf | hf
    · exact Or.inl ⟨rfl, hf, hfe⟩
    · rw [show appendMany [] w = w from rfl] at hfe
      rw [hf] at hfe
      exact absurd hfe (by simp)
  · refine Or.inr ⟨wb, hfw, ?_, by simp⟩
    simpa using hlk


/-- C2 witness: two successful appends on an initially empty target yield
the header plus the two records, three rows, in call order. -/
theorem claim2_witness :
    connectedWorld.handleStore = some 7 ∧
    (connectedWorld.files 7 = FileBytes.empty ∨
      connectedWorld.files 7 = .encoded createWorkbookWithHeaders) ∧
    allSucceed twoCalls connectedWorld = true ∧
    ((twoCalls = [] ∧ connectedWorld.files 7 = FileBytes.empty ∧
        (appendMany twoCalls connectedWorld).files 7 = FileBytes.empty) ∨
      ∃ wb, (appendMany twoCalls connectedWorld).files 7 = .encoded wb ∧
        wb.Sheets.lookup EXCEL_SHEET_NAME =
          some (EXCEL_HEADERS :: twoCalls.map fun c => entryRow c.2.1) ∧
        (EXCEL_HEADERS :: twoCalls.map fun c => entryRow c.2.1).length =
          twoCalls.length + 1) :=
  ⟨rfl, Or.inl rfl, by decide,
    claim2_append_sequence twoCalls connectedWorld 7 rfl (Or.inl rfl) (by decide)⟩


end TimberExcel
